import Mathlib

/-!
Shallow embedding of the AMD LED-control subsystem of ledmon
(`src/amd.c`, `src/amd_ipmi.c`).

Machine integers are modelled as `Nat`/`Int` with explicit `% 256` where the C
code truncates to `uint8_t`.  The IPMI transport (`ipmicmd`) is an external
collaborator and is modelled as an abstract function from the request bytes
(the `cmd_data` array that the code fills in) to the pair
`(return code, response status)`, exactly the two outputs the code reads.
Every embedded operation additionally returns the list of requests it handed
to the transport, so that "no transport call is made" is a provable statement.

C behaviour that is undefined (dereferencing a possibly-NULL pointer, shifting
by a negative amount) is modelled by an `Option`: `none` marks an execution
that reaches undefined behaviour.
-/

set_option autoImplicit false

/-! ### Character-list helpers (models of the libc string functions used) -/

/-- Suffix after the last `'/'`; `none` when the string has no `'/'`
(`strrchr(s, '/')` returning `NULL`). -/
def afterLastSlash : List Char → Option (List Char)
  | [] => none
  | c :: rest =>
    match afterLastSlash rest with
    | some r => some r
    | none => if c = '/' then some rest else none

/-- Prefix strictly before the last `'/'`; `none` when there is no `'/'`. -/
def beforeLastSlash : List Char → Option (List Char)
  | [] => none
  | c :: rest =>
    match beforeLastSlash rest with
    | some r => some (c :: r)
    | none => if c = '/' then some [] else none

/-- Prefix strictly before the first occurrence of `target`; `none` when the
character does not occur (`strchr` returning `NULL`). -/
def beforeChar (target : Char) : List Char → Option (List Char)
  | [] => none
  | c :: rest =>
    if c = target then some []
    else (beforeChar target rest).map (fun r => c :: r)

/-- Index of the first occurrence of `pat` as a contiguous substring
(`strstr`); `none` when it does not occur. -/
def findSub (pat : List Char) : List Char → Option Nat
  | [] => if pat = [] then some 0 else none
  | c :: rest =>
    if pat.isPrefixOf (c :: rest) then some 0
    else (findSub pat rest).map (fun i => i + 1)

/-- Value of the leading decimal digits of `s`, accumulator style; parsing
stops at the first non-digit (the common core of `atoi` and `strtoul`). -/
def parseDigits : List Char → Nat → Nat
  | [], acc => acc
  | c :: rest, acc =>
    if c.isDigit then parseDigits rest (acc * 10 + (c.toNat - 48)) else acc

/-- Model of `strtoul(s, NULL, 10)` on the inputs this code feeds it:
the value of the leading digits, `0` when there are none. -/
def strtoulM (s : List Char) : Nat := parseDigits s 0

/-- Model of `atoi` on the inputs this code feeds it (directory names):
optional leading minus sign, then leading digits, `0` when there are none. -/
def atoiM (s : List Char) : Int :=
  match s with
  | c :: rest =>
    if c = '-' then -(parseDigits rest 0 : Int) else (parseDigits s 0 : Int)
  | [] => 0

/-- Model of libc `dirname` on the slash-separated paths used here:
everything before the last `'/'` (`"."` when there is no slash, `"/"` when the
slash is leading). -/
def dirnameM (s : List Char) : List Char :=
  match beforeLastSlash s with
  | none => ['.']
  | some [] => ['/']
  | some p => p

/-! ### Data model -/

/-- `enum amd_platforms` (declared in `amd.h`): the two named SKUs the IPMI
code distinguishes, with `unspecified` standing for every other value of the
global `amd_platform` (the `default:` arm of each `switch`). -/
inductive Platform where
  | ethanolX
  | daytonaX
  | unspecified
  deriving DecidableEq, Repr

/-- `enum amd_led_interfaces` from `src/amd.c`. -/
inductive Interface where
  | amdUnset
  | amdSgpio
  | amdIpmi
  deriving DecidableEq, Repr

/-- Device class of a located drive (`AMD_NVME_DEVICE` / `AMD_SATA_DEVICE`). -/
inductive DevClass where
  | nvme
  | sata
  deriving DecidableEq, Repr

/-- The `struct amd_drive` fields read by the IPMI register protocol:
`port` is a C `int`; `drive_bay` is the one-bit bay mask (a nonnegative
machine integer; the protocol truncates it to its low byte). -/
structure AmdDrive where
  port : Int
  drive_bay : Nat
  dev : DevClass
  deriving DecidableEq, Repr

/-- Result of `_get_amd_ipmi_drive` before the bay mask is materialised:
`shift` is the bit position the code computes for the bay mask
(the `shift` local variable in the SATA branch, `port - 1` in the NVMe
branch); `drive_bay` is `1 << shift`, which is only defined for a
nonnegative shift (`none` marks the undefined negative-shift case). -/
structure LocatedDrive where
  port : Int
  shift : Int
  drive_bay : Option Nat
  dev : DevClass
  deriving DecidableEq, Repr

/-- The IBPI visual patterns this code handles. -/
inductive Pattern where
  | normal
  | oneshotNormal
  | locateOff
  | locate
  | pfa
  | failedDrive
  | failedArray
  | rebuild
  | hotspare
  deriving DecidableEq, Repr

/-- The fields of `struct block_device` this subsystem reads: the controller
path and the previously-applied pattern (`ibpi_prev`). -/
structure BlockDevice where
  cntrl_path : List Char
  ibpi_prev : Pattern
  deriving DecidableEq, Repr

/-- The IPMI transport collaborator (`ipmicmd`).  `send` receives the request
bytes (`cmd_data`, 4 or 5 bytes) and produces the function return code and
the `status` out-parameter.  The fixed header `(BMC_SA, 0x0, 0x6, 0x52)` is
identical on every call and therefore not part of the model. -/
structure Transport where
  send : List Nat → Int × Nat

/-! ### Register Protocol Encoder (`src/amd_ipmi.c`) -/

/-- `amd_ibpi_ipmi_register` from `src/amd_ipmi.c`: the static register table.
Patterns outside the designated initialisers read `0` (static arrays are
zero-filled); the write path never indexes those. -/
def amd_ibpi_ipmi_register : Pattern → Nat
  | Pattern.pfa => 0x41
  | Pattern.locate => 0x42
  | Pattern.failedDrive => 0x44
  | Pattern.failedArray => 0x45
  | Pattern.rebuild => 0x46
  | Pattern.hotspare => 0x47
  | _ => 0

/-- `_ipmi_platform_channel`.  The result is a `uint8_t`; the `default:` arm
stores `-1`, which converts to `255`. -/
def ipmi_platform_channel (pf : Platform) : Nat :=
  match pf with
  | Platform.ethanolX => 0xd
  | Platform.daytonaX => 0x17
  | Platform.unspecified => 255

/-- `_ipmi_platform_slave_address`.  The result is a `uint8_t`; the
`default:` arm stores `-1`, which converts to `255`. -/
def ipmi_platform_slave_address (pf : Platform) (drive : Option AmdDrive) : Nat :=
  match pf with
  | Platform.ethanolX => 0xc0
  | Platform.daytonaX =>
    match drive with
    | none => 0xc0
    | some d =>
      if d.dev = DevClass.nvme then 0xc4
      else if d.port ≤ 8 then 0xc0
      else if 8 < d.port ∧ d.port < 17 then 0xc2
      else 0xc4
  | Platform.unspecified => 255

/-- `_set_ipmi_register`: the read-modify-write sequence.  Returns the C
return value together with the list of requests passed to the transport.

Note on fidelity: `channel` and `slave_addr` are `uint8_t` variables, so the
source's guard `(channel < 0) || (slave_addr < 0)` compares values in
`0..255` after integer promotion; it is kept here verbatim as a comparison of
the (nonnegative) embedded values cast to `Int`.  The `uint8_t` store
`new_drives_status = drives_status | bay` is the low byte of the bitwise or;
`drives_status & ~bay` on a value `drives_status < 256` equals
`drives_status &&& (255 ^^^ (bay % 256))`. -/
def set_ipmi_register (T : Transport) (pf : Platform) (enable : Bool) (reg : Nat)
    (drive : AmdDrive) : Int × List (List Nat) :=
  let channel := ipmi_platform_channel pf
  let slave_addr := ipmi_platform_slave_address pf (some drive)
  if (channel : Int) < 0 ∨ (slave_addr : Int) < 0 then (-1, [])
  else
    let readReq := [channel, slave_addr, 0x1, reg]
    let rres := T.send readReq
    if rres.1 ≠ 0 then (rres.1, [readReq])
    else
      let drives_status := rres.2 % 256
      let new_drives_status :=
        if enable then (drives_status ||| drive.drive_bay) % 256
        else drives_status &&& (255 ^^^ (drive.drive_bay % 256))
      let writeReq := [channel, slave_addr, 0x1, reg, new_drives_status]
      let wres := T.send writeReq
      if wres.1 ≠ 0 then (wres.1, [readReq, writeReq])
      else (0, [readReq, writeReq])

/-- `_enable_smbus_control`. -/
def enable_smbus_control (T : Transport) (pf : Platform) (drive : AmdDrive) :
    Int × List (List Nat) :=
  set_ipmi_register T pf true 0x3c drive

/-- `_enable_ibpi_state`. -/
def enable_ibpi_state (T : Transport) (pf : Platform) (drive : AmdDrive)
    (ibpi : Pattern) : Int × List (List Nat) :=
  set_ipmi_register T pf true (amd_ibpi_ipmi_register ibpi) drive

/-- `_disable_ibpi_state`. -/
def disable_ibpi_state (T : Transport) (pf : Platform) (drive : AmdDrive)
    (ibpi : Pattern) : Int × List (List Nat) :=
  set_ipmi_register T pf false (amd_ibpi_ipmi_register ibpi) drive

/-- `_disable_all_ibpi_states`: five sequential disables, return codes
accumulated with C's `rc |= ...` (bitwise or on `int`). -/
def disable_all_ibpi_states (T : Transport) (pf : Platform) (drive : AmdDrive) :
    Int × List (List Nat) :=
  let r1 := disable_ibpi_state T pf drive Pattern.pfa
  let r2 := disable_ibpi_state T pf drive Pattern.locate
  let r3 := disable_ibpi_state T pf drive Pattern.failedDrive
  let r4 := disable_ibpi_state T pf drive Pattern.failedArray
  let r5 := disable_ibpi_state T pf drive Pattern.rebuild
  (Int.lor (Int.lor (Int.lor (Int.lor r1.1 r2.1) r3.1) r4.1) r5.1,
    r1.2 ++ r2.2 ++ r3.2 ++ r4.2 ++ r5.2)

instance {ε α : Type} [DecidableEq ε] [DecidableEq α] : DecidableEq (Except ε α) :=
  fun a b =>
    match a, b with
    | Except.error e1, Except.error e2 =>
      if h : e1 = e2 then isTrue (by rw [h]) else isFalse (by intro hh; cases hh; exact h rfl)
    | Except.error _, Except.ok _ => isFalse (by intro hh; cases hh)
    | Except.ok _, Except.error _ => isFalse (by intro hh; cases hh)
    | Except.ok v1, Except.ok v2 =>
      if h : v1 = v2 then isTrue (by rw [h]) else isFalse (by intro hh; cases hh; exact h rfl)

/-! ### Drive Locator (`src/amd_ipmi.c`) -/

/-- The PCI-slot directory scan of `/sys/bus/pci/slots`: each entry is the
directory path paired with the contents of its `address` file
(`get_text(dir_path, "address")`; `none` when that read returns `NULL`). -/
def SlotList : Type := List (List Char × Option (List Char))

/-- The `list_for_each` loop of `_get_ipmi_nvme_port` over the slot entries.
`p` is the extracted PCI address.  `none` marks undefined behaviour:
a `NULL` `port_name` handed to `strcmp`, or a slot path without `'/'`
(`strrchr` returning `NULL`, then `dname++` and `atoi(dname)`).
When no entry matches, `port` keeps its initial value `-1`. -/
def scanSlots (p : List Char) : List (List Char × Option (List Char)) → Option Int
  | [] => some (-1)
  | (dirp, addr) :: rest =>
    match addr with
    | none => none
    | some a =>
      if a = p then (afterLastSlash dirp).map (fun dname => atoiM dname)
      else scanSlots p rest

/-- The platform-specific port adjustment in `_get_ipmi_nvme_port`
(`switch (amd_platform)`): DaytonaX subtracts 2, EthanolX subtracts 7. -/
def platform_port_adjust (pf : Platform) (port : Int) : Int :=
  match pf with
  | Platform.daytonaX => port - 2
  | Platform.ethanolX => port - 7
  | Platform.unspecified => port

/-- `_get_ipmi_nvme_port` up to (but not including) the final range check:
extract the last path component (`strrchr '/'`), strip everything from the
first `'.'` (`strchr '.'`), look the address up in the slot scan, apply the
platform adjustment.  `none` marks undefined behaviour: no `'/'` in the path
(`p = strrchr(...) + 1` with `strrchr` returning `NULL`), no `'.'` in the
component (the store through `f = strchr(p, '.')` with `f = NULL`), or the
slot-scan UB of `scanSlots`.  The `scan_dir` call is assumed to succeed (the
slot list is given). -/
def nvme_port_raw (pf : Platform) (slots : List (List Char × Option (List Char)))
    (path : List Char) : Option Int :=
  match afterLastSlash path with
  | none => none
  | some comp =>
    match beforeChar '.' comp with
    | none => none
    | some p => (scanSlots p slots).map (fun port => platform_port_adjust pf port)

/-- `_get_ipmi_nvme_port`: the raw adjusted port followed by the validity
check `(port < 0) || (port > 24)`, which replaces an out-of-range port
with `-1`. -/
def get_ipmi_nvme_port (pf : Platform) (slots : List (List Char × Option (List Char)))
    (path : List Char) : Option Int :=
  (nvme_port_raw pf slots path).map (fun port => if port < 0 ∨ 24 < port then -1 else port)

/-- `_get_ipmi_sata_port`: find `"ata"` (`strstr`), require a `'/'` after it,
parse the digits following the `"ata"` prefix (`strtoul`).  The copy of
`start_path` into a `PATH_MAX` buffer is assumed not to truncate. -/
def get_ipmi_sata_port (start_path : List Char) : Int :=
  match findSub ("ata".toList) start_path with
  | none => -1
  | some i =>
    let fromAta := start_path.drop i
    match beforeChar '/' fromAta with
    | none => -1
    | some _ => (strtoulM (fromAta.drop 3) : Int)

/-- `_get_amd_ipmi_drive`.  `nvmeRes` is the result of
`_find_file_path(start_path, "nvme", ...)` (the filesystem query), `some p`
meaning the search succeeded and wrote `p`.  Returns `none` on undefined
behaviour (inside the NVMe port lookup, or the bay-mask shift `1 << shift`
with a negative shift, recorded as `drive_bay = none`), otherwise
`Except.error (-1)` exactly when the C function returns `-1`. -/
def get_amd_ipmi_drive (pf : Platform) (slots : List (List Char × Option (List Char)))
    (nvmeRes : Option (List Char)) (start_path : List Char) :
    Option (Except Int LocatedDrive) :=
  match nvmeRes with
  | some path =>
    match get_ipmi_nvme_port pf slots path with
    | none => none
    | some port =>
      if port < 0 then some (Except.error (-1))
      else
        let shift := port - 1
        let ld : LocatedDrive :=
          ⟨port, shift, if 0 ≤ shift then some (2 ^ shift.toNat) else none, DevClass.nvme⟩
        if ld.port = -1 then some (Except.error (-1)) else some (Except.ok ld)
  | none =>
    let port := get_ipmi_sata_port start_path
    if port < 0 then some (Except.error (-1))
    else
      let shift0 := port - 1
      let shift := if 8 ≤ shift0 then shift0 % 8 else shift0
      let ld : LocatedDrive :=
        ⟨port, shift, if 0 ≤ shift then some (2 ^ shift.toNat) else none, DevClass.sata⟩
      if ld.port = -1 then some (Except.error (-1)) else some (Except.ok ld)

/-! ### LED State Controller -/

/-- `_amd_ipmi_write`: resolve the drive, then dispatch on the pattern.
`none` marks an execution that reaches undefined behaviour (inside drive
resolution or the negative bay-mask shift). -/
def amd_ipmi_write (T : Transport) (pf : Platform)
    (slots : List (List Char × Option (List Char))) (nvmeRes : Option (List Char))
    (cntrl_path : List Char) (ibpi : Pattern) : Option (Int × List (List Nat)) :=
  match get_amd_ipmi_drive pf slots nvmeRes cntrl_path with
  | none => none
  | some (Except.error rc) => some (rc, [])
  | some (Except.ok ld) =>
    match ld.drive_bay with
    | none => none
    | some bay =>
      let drive : AmdDrive := ⟨ld.port, bay, ld.dev⟩
      if ibpi = Pattern.normal ∨ ibpi = Pattern.oneshotNormal then
        some (disable_all_ibpi_states T pf drive)
      else if ibpi = Pattern.locateOff then
        some (disable_ibpi_state T pf drive Pattern.locate)
      else
        let r1 := enable_smbus_control T pf drive
        if r1.1 ≠ 0 then some (r1.1, r1.2)
        else
          let r2 := enable_ibpi_state T pf drive ibpi
          if r2.1 ≠ 0 then some (r2.1, r1.2 ++ r2.2)
          else some (0, r1.2 ++ r2.2)

/-! ### Platform Detector and interface dispatch (`src/amd.c`) -/

/-- `_get_amd_led_interface`: classify the DMI product-name string.
`strncmp(name, lit, strlen(lit)) == 0` is exactly "`lit` is a prefix of
`name`". -/
def get_amd_led_interface (name : Option (List Char)) : Interface :=
  match name with
  | none => Interface.amdSgpio
  | some n =>
    if ("ETHANOL-X".toList).isPrefixOf n then Interface.amdIpmi
    else if ("DAYTONA-X".toList).isPrefixOf n then Interface.amdSgpio
    else if ("GRANDSTAND".toList).isPrefixOf n then Interface.amdSgpio
    else if ("SPEEDWAY".toList).isPrefixOf n then Interface.amdSgpio
    else Interface.amdSgpio

/-- Modelled from the spec: the platform half of `detect_platform` (§4.2).
The assignment of the process-wide platform identifier (`amd_platform`) is
not part of the source under `src/`; only its readers are.  §4.2 fixes the
mapping: `ETHANOL-X → (EthanolX, IPMI)`, `DAYTONA-X → (DaytonaX, SGPIO)`,
`GRANDSTAND`/`SPEEDWAY` and every other or absent value →
`(Unspecified, SGPIO)`. -/
def detect_platform (name : Option (List Char)) : Platform × Interface :=
  match name with
  | none => (Platform.unspecified, Interface.amdSgpio)
  | some n =>
    if ("ETHANOL-X".toList).isPrefixOf n then (Platform.ethanolX, Interface.amdIpmi)
    else if ("DAYTONA-X".toList).isPrefixOf n then (Platform.daytonaX, Interface.amdSgpio)
    else if ("GRANDSTAND".toList).isPrefixOf n then (Platform.unspecified, Interface.amdSgpio)
    else if ("SPEEDWAY".toList).isPrefixOf n then (Platform.unspecified, Interface.amdSgpio)
    else (Platform.unspecified, Interface.amdSgpio)

/-- `amd_write` from `src/amd.c`: write suppression, then dispatch to the
SGPIO or IPMI backend.  The backends are passed as abstract functions that
return a result code and the transport requests they issued; the device
record is returned unchanged (the source never writes to it). -/
def amd_write (iface : Interface)
    (sgpioW ipmiW : BlockDevice → Pattern → Int × List (List Nat))
    (device : BlockDevice) (ibpi : Pattern) :
    Int × List (List Nat) × BlockDevice :=
  if ibpi = device.ibpi_prev then (1, [], device)
  else if iface = Interface.amdSgpio then
    let r := sgpioW device ibpi
    (r.1, r.2, device)
  else
    let r := ipmiW device ibpi
    (r.1, r.2, device)

/-! ### Path Resolver (`src/amd.c`, `_find_file_path`) -/

/-- A sysfs subtree: an entry is a plain file or a directory with its own
entries; names are single path components (no `'/'`). -/
inductive FsNode where
  | file (nm : List Char)
  | dir (nm : List Char) (children : List FsNode)

/-- Base name of an entry. -/
def FsNode.nm : FsNode → List Char
  | FsNode.file n => n
  | FsNode.dir n _ => n

/-- The path the match branch of `_find_file_path` stores into `path`:
`strncpy(tmp, dir_path, path_len)` truncates `dir_path` to `path_len`
characters (for a longer `dir_path` the copy is not even NUL-terminated —
undefined; the model keeps the benign exact-truncation reading), then
`snprintf(path, path_len, "%s", dirname(tmp))` keeps at most
`path_len - 1` characters. -/
def matched_path (dir_path : List Char) (path_len : Nat) : List Char :=
  (dirnameM (dir_path.take path_len)).take (path_len - 1)

mutual

/-- One iteration of the `list_for_each` body of `_find_file_path` for entry
`node` under directory `parent`: take the base name (`strrchr '/'` — entries
without a slash are skipped by `if (!dir_name++) continue`), test the
`filename` prefix, and otherwise recurse into directories. -/
def findNode (filename : List Char) (path_len : Nat) (parent : List Char)
    (node : FsNode) : Option (List Char) :=
  let dir_path := parent ++ '/' :: node.nm
  match afterLastSlash dir_path with
  | none => none
  | some dir_name =>
    if filename.isPrefixOf dir_name then some (matched_path dir_path path_len)
    else
      match node with
      | FsNode.file _ => none
      | FsNode.dir _ children => findList filename path_len dir_path children
termination_by sizeOf node

/-- The `list_for_each` loop of `_find_file_path`: first match wins,
otherwise continue with the remaining entries. -/
def findList (filename : List Char) (path_len : Nat) (parent : List Char) :
    List FsNode → Option (List Char)
  | [] => none
  | node :: rest =>
    match findNode filename path_len parent node with
    | some found => some found
    | none => findList filename path_len parent rest
termination_by l => sizeOf l

end

/-- `_find_file_path`: `listing` is the `scan_dir(start_path, &dir)` result
(`none` when the scan fails, in which case the function reports not-found).
Returns `some p` when the search succeeds and stores `p` (`found = 1`). -/
def find_file_path (start_path : List Char) (filename : List Char)
    (path_len : Nat) (listing : Option (List FsNode)) : Option (List Char) :=
  match listing with
  | none => none
  | some nodes => findList filename path_len start_path nodes

/-! ### Spec-side protocol formulas (§4.4), compared against the code -/

/-- The 4-byte read request `{channel, slave_addr, length=1, register}` of
§4.4, written as a function of platform, drive and register. -/
def read_request (pf : Platform) (drive : AmdDrive) (reg : Nat) : List Nat :=
  [ipmi_platform_channel pf, ipmi_platform_slave_address pf (some drive), 0x1, reg]

/-- §4.4's new bitmap at byte width: `(current | bay_mask)` when enabling,
`(current & ~bay_mask)` when disabling (`~` at 8-bit width is
`255 ^^^ bay`). -/
def new_bitmap (enable : Bool) (current bay : Nat) : Nat :=
  if enable then current ||| bay else current &&& (255 ^^^ bay)

/-- The 5-byte write request of §4.4: the read request followed by the new
bitmap computed from the read response. -/
def write_request (T : Transport) (pf : Platform) (drive : AmdDrive)
    (enable : Bool) (reg : Nat) : List Nat :=
  read_request pf drive reg ++
    [new_bitmap enable ((T.send (read_request pf drive reg)).2 % 256) drive.drive_bay]

/-! ### Concrete objects used by the closed witness statements -/

/-- A transport whose every call succeeds with status byte `5`. -/
def T0 : Transport := ⟨fun _ => (0, 5)⟩

/-- A drive at port 1, bay mask `0x01`. -/
def d1 : AmdDrive := ⟨1, 1, DevClass.sata⟩

/-- A trivial LED backend (always succeeds, no transport traffic). -/
def bk0 : BlockDevice → Pattern → Int × List (List Nat) := fun _ _ => (0, [])

/-- A device record whose previously-applied pattern is `locate`. -/
def dev0 : BlockDevice := ⟨"x".toList, Pattern.locate⟩

/-! ### Helper lemmas -/

theorem nat_lor_eq_zero_iff (m n : Nat) : m ||| n = 0 ↔ m = 0 ∧ n = 0 := by
  constructor
  · intro h
    constructor
    · refine Nat.eq_of_testBit_eq fun i => ?_
      have hb := congrArg (fun x => Nat.testBit x i) h
      simp only [Nat.testBit_or, Nat.zero_testBit, Bool.or_eq_false_iff] at hb
      simp [hb.1]
    · refine Nat.eq_of_testBit_eq fun i => ?_
      have hb := congrArg (fun x => Nat.testBit x i) h
      simp only [Nat.testBit_or, Nat.zero_testBit, Bool.or_eq_false_iff] at hb
      simp [hb.2]
  · rintro ⟨rfl, rfl⟩
    rfl

theorem int_lor_eq_zero_iff (a b : Int) : Int.lor a b = 0 ↔ a = 0 ∧ b = 0 := by
  cases a with
  | ofNat m =>
    cases b with
    | ofNat n =>
      simp only [Int.lor, Int.ofNat_eq_natCast, Int.natCast_eq_zero]
      exact nat_lor_eq_zero_iff m n
    | negSucc n =>
      simp only [Int.lor]
      constructor
      · intro h; cases h
      · rintro ⟨h1, h2⟩; cases h2
  | negSucc m =>
    cases b with
    | ofNat n =>
      simp only [Int.lor]
      constructor
      · intro h; cases h
      · rintro ⟨h1, h2⟩; cases h1
    | negSucc n =>
      simp only [Int.lor]
      constructor
      · intro h; cases h
      · rintro ⟨h1, h2⟩; cases h1

theorem set_reg_guard_false (pf : Platform) (drive : AmdDrive) :
    ¬((ipmi_platform_channel pf : Int) < 0 ∨
      (ipmi_platform_slave_address pf (some drive) : Int) < 0) := by
  push_neg
  exact ⟨Int.natCast_nonneg _, Int.natCast_nonneg _⟩

theorem set_reg_read_mem (T : Transport) (pf : Platform) (enable : Bool)
    (reg : Nat) (drive : AmdDrive) :
    read_request pf drive reg ∈ (set_ipmi_register T pf enable reg drive).2 := by
  unfold set_ipmi_register
  rw [if_neg (set_reg_guard_false pf drive)]
  dsimp only
  repeat' split
  all_goals simp [read_request]

theorem scanSlots_none (p : List Char) (pre : List (List Char × Option (List Char)))
    (d : List Char) (post : List (List Char × Option (List Char)))
    (hpre : ∀ e ∈ pre, ∃ a, e.2 = some a ∧ a ≠ p) :
    scanSlots p (pre ++ (d, none) :: post) = none := by
  induction pre with
  | nil => rfl
  | cons e rest ih =>
    obtain ⟨a, ha, hne⟩ := hpre e (List.mem_cons_self e rest)
    obtain ⟨ed, ea⟩ := e
    simp only at ha
    subst ha
    simp only [List.cons_append, scanSlots, if_neg hne]
    exact ih fun x hx => hpre x (List.mem_cons_of_mem _ hx)

/-! ### Claim theorems -/

/-- C1: the claim states that for every platform other than EthanolX and
DaytonaX, `set_register` returns an Unsupported error immediately and issues
no transport call.  The code refutes this: `channel` and `slave_addr` are
`uint8_t`, so the `-1` sentinels become `255` and the guard
`(channel < 0) || (slave_addr < 0)` is always false.  On the `unspecified`
platform the embedded `set_ipmi_register` therefore issues both transport
requests (with channel and slave address bytes `0xff`) and reports success,
instead of failing with no transport call. -/
theorem c1_undefined_platform_still_sends :
    set_ipmi_register T0 Platform.unspecified true 0x41 d1 =
      (0, [[255, 255, 1, 0x41], [255, 255, 1, 0x41, 5]]) ∧
    (set_ipmi_register T0 Platform.unspecified true 0x41 d1).2 ≠ [] := by
  decide

/-- C2: for every device record whose previously-applied pattern equals the
requested pattern, `amd_write` performs zero transport calls (empty request
trace from either backend), leaves the device record unchanged, and returns
the suppression success value `1`. -/
theorem c2_write_suppression (iface : Interface)
    (sgpioW ipmiW : BlockDevice → Pattern → Int × List (List Nat))
    (device : BlockDevice) (ibpi : Pattern) (h : ibpi = device.ibpi_prev) :
    amd_write iface sgpioW ipmiW device ibpi = (1, [], device) := by
  simp [amd_write, h]

theorem c2_write_suppression_witness :
    amd_write Interface.amdIpmi bk0 bk0 dev0 Pattern.locate = (1, [], dev0) :=
  c2_write_suppression Interface.amdIpmi bk0 bk0 dev0 Pattern.locate rfl

/-- C3: `set_ipmi_register` first sends the 4-byte read request
`{channel, slave_addr, 1, register}` (`read_request`, which heads the trace
in every outcome); when the read succeeds it sends the 5-byte write request
carrying the new bitmap `(current | bay)` when enabling and
`(current & ~bay)` when disabling (`new_bitmap`, at byte width with `~bay`
written `255 ^^^ bay`); when the read-phase transport call fails, the trace
holds only the read request and the transport return code is propagated
unchanged. -/
theorem c3_set_register_protocol (T : Transport) (pf : Platform)
    (enable : Bool) (reg : Nat) (drive : AmdDrive)
    (hbay : drive.drive_bay < 256) :
    ((T.send (read_request pf drive reg)).1 ≠ 0 →
      set_ipmi_register T pf enable reg drive =
        ((T.send (read_request pf drive reg)).1, [read_request pf drive reg])) ∧
    ((T.send (read_request pf drive reg)).1 = 0 →
      set_ipmi_register T pf enable reg drive =
        if (T.send (write_request T pf drive enable reg)).1 ≠ 0
        then ((T.send (write_request T pf drive enable reg)).1,
          [read_request pf drive reg, write_request T pf drive enable reg])
        else (0,
          [read_request pf drive reg, write_request T pf drive enable reg])) := by
  have hor : ∀ cur : Nat,
      (cur % 256 ||| drive.drive_bay) % 256 = cur % 256 ||| drive.drive_bay := by
    intro cur
    apply Nat.mod_eq_of_lt
    have h1 : cur % 256 < 2 ^ 8 := by
      have h2 : cur % 256 < 256 := Nat.mod_lt _ (by norm_num)
      simpa using h2
    have h3 : drive.drive_bay < 2 ^ 8 := by simpa using hbay
    simpa using @Nat.or_lt_two_pow (cur % 256) drive.drive_bay 8 h1 h3
  have hnb : ∀ cur : Nat,
      (if enable = true then (cur % 256 ||| drive.drive_bay) % 256
       else cur % 256 &&& (255 ^^^ drive.drive_bay % 256)) =
      new_bitmap enable (cur % 256) drive.drive_bay := by
    intro cur
    cases enable with
    | true => simp [new_bitmap, hor cur]
    | false => simp [new_bitmap, Nat.mod_eq_of_lt hbay]
  constructor
  · intro hrc
    unfold set_ipmi_register
    rw [if_neg (set_reg_guard_false pf drive)]
    dsimp only
    rw [if_pos (show (T.send [ipmi_platform_channel pf,
      ipmi_platform_slave_address pf (some drive), 1, reg]).1 ≠ 0 from hrc)]
    simp [read_request]
  · intro hrc
    unfold set_ipmi_register
    rw [if_neg (set_reg_guard_false pf drive)]
    dsimp only
    rw [if_neg (show ¬(T.send [ipmi_platform_channel pf,
      ipmi_platform_slave_address pf (some drive), 1, reg]).1 ≠ 0 from by
        simpa using hrc)]
    rw [hnb ((T.send [ipmi_platform_channel pf,
      ipmi_platform_slave_address pf (some drive), 1, reg]).2)]
    simp only [write_request, read_request, new_bitmap, List.cons_append,
      List.nil_append]

theorem c3_witness :
    set_ipmi_register T0 Platform.ethanolX true 65 ⟨1, 3, DevClass.sata⟩ =
      (0, [[13, 192, 1, 65], [13, 192, 1, 65, 7]]) := by
  have h := (c3_set_register_protocol T0 Platform.ethanolX true 65
    ⟨1, 3, DevClass.sata⟩ (by decide)).2 (by decide)
  exact h.trans (by decide)

/-- C4: slave-address selection is a pure function of platform, device class
and port: EthanolX always `0xc0` (with or without drive context); DaytonaX
with no drive context `0xc0`; DaytonaX NVMe `0xc4`; DaytonaX SATA `0xc0`
for port ≤ 8, `0xc2` for 8 < port < 17, `0xc4` otherwise (port ≥ 17). -/
theorem c4_slave_address (d : AmdDrive) :
    ipmi_platform_slave_address Platform.ethanolX (some d) = 0xc0 ∧
    ipmi_platform_slave_address Platform.ethanolX none = 0xc0 ∧
    ipmi_platform_slave_address Platform.daytonaX none = 0xc0 ∧
    (d.dev = DevClass.nvme →
      ipmi_platform_slave_address Platform.daytonaX (some d) = 0xc4) ∧
    (d.dev = DevClass.sata →
      (d.port ≤ 8 → ipmi_platform_slave_address Platform.daytonaX (some d) = 0xc0) ∧
      (8 < d.port ∧ d.port < 17 →
        ipmi_platform_slave_address Platform.daytonaX (some d) = 0xc2) ∧
      (17 ≤ d.port → ipmi_platform_slave_address Platform.daytonaX (some d) = 0xc4)) := by
  refine ⟨rfl, rfl, rfl, ?_, ?_⟩
  · intro h
    simp [ipmi_platform_slave_address, h]
  · intro h
    have hnv : ¬(d.dev = DevClass.nvme) := by rw [h]; intro hh; cases hh
    refine ⟨fun hp => ?_, fun hp => ?_, fun hp => ?_⟩ <;>
      · simp only [ipmi_platform_slave_address]
        rw [if_neg hnv]
        split_ifs <;> omega

theorem c4_slave_address_witness :
    ipmi_platform_slave_address Platform.daytonaX
      (some ⟨10, 2, DevClass.sata⟩) = 0xc2 :=
  ((c4_slave_address ⟨10, 2, DevClass.sata⟩).2.2.2.2 rfl).2.1 (by constructor <;> decide)

/-- C5 (claim as stated is false; this is the amended statement): for every
drive the locator resolves successfully, (a) a SATA drive keeps its un-reduced
port (`get_ipmi_sata_port` of the controller path), its bay-mask bit position
equals `(port - 1) % 8` and lies in `[0, 7]` **provided `port ≥ 1`**, while at
`port = 0` (reachable, e.g. when the text after `"ata"` has no digits) the
computed bit position is `-1` and the bay-mask shift is undefined; (b) an
NVMe drive's bit position is `port - 1` without modulo reduction. -/
theorem c5_bay_shift_amended (pf : Platform)
    (slots : List (List Char × Option (List Char))) (nvmeRes : Option (List Char))
    (spath : List Char) (ld : LocatedDrive)
    (h : get_amd_ipmi_drive pf slots nvmeRes spath = some (Except.ok ld)) :
    (ld.dev = DevClass.sata →
      ld.port = get_ipmi_sata_port spath ∧
      (1 ≤ ld.port → ld.shift = (ld.port - 1) % 8 ∧ 0 ≤ ld.shift ∧ ld.shift < 8) ∧
      (ld.port = 0 → ld.shift = -1)) ∧
    (ld.dev = DevClass.nvme → ld.shift = ld.port - 1) := by
  unfold get_amd_ipmi_drive at h
  cases nvmeRes with
  | some path =>
    dsimp only at h
    cases hp : get_ipmi_nvme_port pf slots path with
    | none => rw [hp] at h; cases h
    | some port =>
      rw [hp] at h
      dsimp only at h
      by_cases hneg : port < 0
      · rw [if_pos hneg] at h; cases h
      · rw [if_neg hneg, if_neg (show ¬(port = -1) by omega)] at h
        obtain rfl : ld = ⟨port, port - 1,
            if 0 ≤ port - 1 then some (2 ^ (port - 1).toNat) else none,
            DevClass.nvme⟩ := by
          injection h with h
          injection h with h
          exact h.symm
        exact ⟨fun hdev => absurd hdev (by simp), fun _ => rfl⟩
  | none =>
    dsimp only at h
    by_cases hneg : get_ipmi_sata_port spath < 0
    · rw [if_pos hneg] at h; cases h
    · rw [if_neg hneg,
        if_neg (show ¬(get_ipmi_sata_port spath = -1) by omega)] at h
      obtain rfl : ld = ⟨get_ipmi_sata_port spath,
          if 8 ≤ get_ipmi_sata_port spath - 1
            then (get_ipmi_sata_port spath - 1) % 8
            else get_ipmi_sata_port spath - 1,
          if 0 ≤ (if 8 ≤ get_ipmi_sata_port spath - 1
              then (get_ipmi_sata_port spath - 1) % 8
              else get_ipmi_sata_port spath - 1)
            then some (2 ^ (if 8 ≤ get_ipmi_sata_port spath - 1
              then (get_ipmi_sata_port spath - 1) % 8
              else get_ipmi_sata_port spath - 1).toNat)
            else none,
          DevClass.sata⟩ := by
        injection h with h
        injection h with h
        exact h.symm
      refine ⟨fun _ => ⟨rfl, fun hport => ?_, fun hport => ?_⟩,
        fun hdev => absurd hdev (by simp)⟩
      · dsimp only at hport ⊢
        split_ifs <;> omega
      · dsimp only at hport ⊢
        rw [hport]
        norm_num

theorem c5_witness :
    (⟨5, 4, some 16, DevClass.sata⟩ : LocatedDrive).shift =
        ((⟨5, 4, some 16, DevClass.sata⟩ : LocatedDrive).port - 1) % 8 ∧
      0 ≤ (⟨5, 4, some 16, DevClass.sata⟩ : LocatedDrive).shift ∧
      (⟨5, 4, some 16, DevClass.sata⟩ : LocatedDrive).shift < 8 :=
  ((c5_bay_shift_amended Platform.unspecified [] none ("ata5/h".toList)
      ⟨5, 4, some 16, DevClass.sata⟩ (by decide)).1 rfl).2.1 (by decide)

/-- C5 counterexample to the claim as stated: the controller path `"ata/x"`
(no digits after `"ata"`, so `strtoul` parses `0`) resolves successfully as a
SATA drive with port `0`, and the computed bay-mask bit position is `-1`,
which is not in `[0, 7]`. -/
theorem c5_counterexample :
    get_amd_ipmi_drive Platform.unspecified [] none ("ata/x".toList) =
      some (Except.ok ⟨0, -1, none, DevClass.sata⟩) ∧
    (⟨0, -1, none, DevClass.sata⟩ : LocatedDrive).dev = DevClass.sata ∧
    ¬(0 ≤ (⟨0, -1, none, DevClass.sata⟩ : LocatedDrive).shift ∧
      (⟨0, -1, none, DevClass.sata⟩ : LocatedDrive).shift < 8) := by
  refine ⟨by decide, rfl, ?_⟩
  intro hcontra
  exact absurd hcontra.1 (by decide)

/-- C6: for every NVMe drive whose slot-derived port after the platform
correction (`nvme_port_raw`) lies outside `[0, 24]`, the port lookup yields
`-1`, drive resolution fails with the `-1` (NotFound-class) error before any
drive record — hence any bay mask — is constructed, and a write attempt
returns that error having issued zero transport requests. -/
theorem c6_nvme_port_validation (pf : Platform)
    (slots : List (List Char × Option (List Char))) (path : List Char) (c : Int)
    (hraw : nvme_port_raw pf slots path = some c) (hout : c < 0 ∨ 24 < c) :
    get_ipmi_nvme_port pf slots path = some (-1) ∧
    (∀ cpath, get_amd_ipmi_drive pf slots (some path) cpath =
      some (Except.error (-1))) ∧
    (∀ T cpath ibpi, amd_ipmi_write T pf slots (some path) cpath ibpi =
      some (-1, [])) := by
  have h1 : get_ipmi_nvme_port pf slots path = some (-1) := by
    unfold get_ipmi_nvme_port
    rw [hraw]
    simp [if_pos hout]
  have h2 : ∀ cpath : List Char, get_amd_ipmi_drive pf slots (some path) cpath =
      some (Except.error (-1)) := by
    intro cpath
    unfold get_amd_ipmi_drive
    dsimp only
    rw [h1]
    simp
  refine ⟨h1, h2, ?_⟩
  intro T cpath ibpi
  unfold amd_ipmi_write
  rw [h2 cpath]

theorem c6_witness :
    get_ipmi_nvme_port Platform.daytonaX
      [(("s/30".toList), some ("b".toList))] ("a/b.c".toList) = some (-1) ∧
    amd_ipmi_write T0 Platform.daytonaX [(("s/30".toList), some ("b".toList))]
      (some ("a/b.c".toList)) ("x".toList) Pattern.locate = some (-1, []) := by
  have h := c6_nvme_port_validation Platform.daytonaX
    [(("s/30".toList), some ("b".toList))] ("a/b.c".toList) 28
    (by decide) (by decide)
  exact ⟨h.1, h.2.2 T0 ("x".toList) Pattern.locate⟩

/-- C7: for every resolved drive, writing `normal` or `oneshotNormal`
dispatches to the five-fold clear, which (a) is what the write returns,
(b) reports success iff every one of the five clears succeeded (the return
codes are or-accumulated, and a bitwise or of `int`s is zero exactly when
all are zero), and (c) sends the read request of every one of the five
registers PFA `0x41`, Locate `0x42`, FailedDrive `0x44`, FailedArray `0x45`,
Rebuild `0x46` — each clear is attempted regardless of the other calls'
outcomes (the trace contains all five reads unconditionally). -/
theorem c7_normal_attempts_all_five (T : Transport) (pf : Platform)
    (slots : List (List Char × Option (List Char))) (nvmeRes : Option (List Char))
    (cpath : List Char) (ibpi : Pattern) (ld : LocatedDrive) (bay : Nat)
    (hp : ibpi = Pattern.normal ∨ ibpi = Pattern.oneshotNormal)
    (hres : get_amd_ipmi_drive pf slots nvmeRes cpath = some (Except.ok ld))
    (hbay : ld.drive_bay = some bay) :
    amd_ipmi_write T pf slots nvmeRes cpath ibpi =
      some (disable_all_ibpi_states T pf ⟨ld.port, bay, ld.dev⟩) ∧
    ((disable_all_ibpi_states T pf ⟨ld.port, bay, ld.dev⟩).1 = 0 ↔
      ((disable_ibpi_state T pf ⟨ld.port, bay, ld.dev⟩ Pattern.pfa).1 = 0 ∧
       (disable_ibpi_state T pf ⟨ld.port, bay, ld.dev⟩ Pattern.locate).1 = 0 ∧
       (disable_ibpi_state T pf ⟨ld.port, bay, ld.dev⟩ Pattern.failedDrive).1 = 0 ∧
       (disable_ibpi_state T pf ⟨ld.port, bay, ld.dev⟩ Pattern.failedArray).1 = 0 ∧
       (disable_ibpi_state T pf ⟨ld.port, bay, ld.dev⟩ Pattern.rebuild).1 = 0)) ∧
    (read_request pf ⟨ld.port, bay, ld.dev⟩ 0x41 ∈
        (disable_all_ibpi_states T pf ⟨ld.port, bay, ld.dev⟩).2 ∧
     read_request pf ⟨ld.port, bay, ld.dev⟩ 0x42 ∈
        (disable_all_ibpi_states T pf ⟨ld.port, bay, ld.dev⟩).2 ∧
     read_request pf ⟨ld.port, bay, ld.dev⟩ 0x44 ∈
        (disable_all_ibpi_states T pf ⟨ld.port, bay, ld.dev⟩).2 ∧
     read_request pf ⟨ld.port, bay, ld.dev⟩ 0x45 ∈
        (disable_all_ibpi_states T pf ⟨ld.port, bay, ld.dev⟩).2 ∧
     read_request pf ⟨ld.port, bay, ld.dev⟩ 0x46 ∈
        (disable_all_ibpi_states T pf ⟨ld.port, bay, ld.dev⟩).2) := by
  refine ⟨?_, ?_, ?_⟩
  · unfold amd_ipmi_write
    rw [hres]
    dsimp only
    rw [hbay]
    rcases hp with rfl | rfl <;> simp
  · unfold disable_all_ibpi_states
    dsimp only
    rw [int_lor_eq_zero_iff, int_lor_eq_zero_iff, int_lor_eq_zero_iff,
      int_lor_eq_zero_iff]
    tauto
  · have hm : ∀ p : Pattern,
        read_request pf ⟨ld.port, bay, ld.dev⟩ (amd_ibpi_ipmi_register p) ∈
          (disable_ibpi_state T pf ⟨ld.port, bay, ld.dev⟩ p).2 := by
      intro p
      unfold disable_ibpi_state
      exact set_reg_read_mem T pf false (amd_ibpi_ipmi_register p)
        ⟨ld.port, bay, ld.dev⟩
    unfold disable_all_ibpi_states
    dsimp only
    simp only [List.mem_append]
    exact ⟨Or.inl (Or.inl (Or.inl (Or.inl (hm Pattern.pfa)))),
      Or.inl (Or.inl (Or.inl (Or.inr (hm Pattern.locate)))),
      Or.inl (Or.inl (Or.inr (hm Pattern.failedDrive))),
      Or.inl (Or.inr (hm Pattern.failedArray)),
      Or.inr (hm Pattern.rebuild)⟩

theorem c7_witness :
    amd_ipmi_write T0 Platform.daytonaX [] none ("ata5/h".toList) Pattern.normal =
      some (disable_all_ibpi_states T0 Platform.daytonaX ⟨5, 16, DevClass.sata⟩) :=
  (c7_normal_attempts_all_five T0 Platform.daytonaX [] none ("ata5/h".toList)
    Pattern.normal ⟨5, 4, some 16, DevClass.sata⟩ 16 (Or.inl rfl) (by decide) rfl).1

/-- C8: the claim states that an entry whose path is too long for the target
buffer makes the resolver fail locally rather than silently truncate.  The
code refutes it: the match branch copies with `strncpy`/`snprintf`, which
truncate silently (for a path at least `path_len` long the `strncpy` copy is
not even NUL-terminated — undefined behaviour; the model keeps the benign
exact-truncation reading).  Concretely, searching for `"nvme"` with a
10-byte buffer from `"/sys"` over the subtree `/sys/devices/nvme0` (matched
path 18 characters long) reports found with the partially-matching truncated
path `"/sys"` instead of the true parent directory `"/sys/devices"`. -/
theorem c8_overlong_path_truncated_not_rejected :
    find_file_path ("/sys".toList) ("nvme".toList) 10
      (some [FsNode.dir ("devices".toList) [FsNode.file ("nvme0".toList)]]) =
      some ("/sys".toList) ∧
    ("/sys".toList : List Char) ≠ ("/sys/devices".toList) := by
  constructor
  · simp +decide [find_file_path, findList, findNode, matched_path, FsNode.nm,
      afterLastSlash, dirnameM, beforeLastSlash, List.isPrefixOf]
  · decide

/-- C9: for every product-name string that does not match any entry of the
static list (`ETHANOL-X`, `DAYTONA-X`, `GRANDSTAND`, `SPEEDWAY`, matched by
the code's `strncmp` prefix rule), and also when the product name is absent,
interface detection selects SGPIO and never IPMI, and the (spec-modelled)
platform component is Unspecified. -/
theorem c9_unknown_product_defaults_sgpio (name : Option (List Char))
    (h : name = none ∨ ∃ n, name = some n ∧
      ¬(("ETHANOL-X".toList) <+: n) ∧
      ¬(("DAYTONA-X".toList) <+: n) ∧
      ¬(("GRANDSTAND".toList) <+: n) ∧
      ¬(("SPEEDWAY".toList) <+: n)) :
    get_amd_led_interface name = Interface.amdSgpio ∧
    get_amd_led_interface name ≠ Interface.amdIpmi ∧
    detect_platform name = (Platform.unspecified, Interface.amdSgpio) := by
  rcases h with rfl | ⟨n, rfl, h1, h2, h3, h4⟩
  · exact ⟨rfl, by decide, rfl⟩
  · simp only [String.toList] at h1 h2 h3 h4
    refine ⟨?_, ?_, ?_⟩ <;>
      simp [get_amd_led_interface, detect_platform, h1, h2, h3, h4]

theorem c9_witness :
    get_amd_led_interface (some ("FOO".toList)) = Interface.amdSgpio ∧
    get_amd_led_interface (some ("FOO".toList)) ≠ Interface.amdIpmi ∧
    detect_platform (some ("FOO".toList)) =
      (Platform.unspecified, Interface.amdSgpio) :=
  c9_unknown_product_defaults_sgpio (some ("FOO".toList))
    (Or.inr ⟨("FOO".toList), rfl, by decide, by decide, by decide, by decide⟩)

/-- C10: NVMe port resolution is only defined when the final component of
the matched path contains a `'.'` and every slot entry scanned before the
first match has readable address text.  When the final component has no
`'.'` (the store through the `NULL` result of `strchr`), or a scanned slot's
address text is absent (`strcmp` on the `NULL` result of `get_text`), the
embedded function yields the undefined-behaviour marker `none` — not the
clean `some (-1)` NotFound result. -/
theorem c10_nvme_port_undefined_without_preconditions (pf : Platform)
    (slots : List (List Char × Option (List Char))) (path comp : List Char)
    (hcomp : afterLastSlash path = some comp)
    (h : beforeChar '.' comp = none ∨
      ∃ p pre d post, beforeChar '.' comp = some p ∧
        slots = pre ++ (d, (none : Option (List Char))) :: post ∧
        (∀ e ∈ pre, ∃ a, e.2 = some a ∧ a ≠ p)) :
    nvme_port_raw pf slots path = none ∧
    get_ipmi_nvme_port pf slots path = none := by
  have hraw : nvme_port_raw pf slots path = none := by
    unfold nvme_port_raw
    rw [hcomp]
    dsimp only
    rcases h with hdot | ⟨p, pre, d, post, hdot, hsl, hpre⟩
    · rw [hdot]
    · rw [hdot]
      dsimp only
      rw [hsl, scanSlots_none p pre d post hpre]
      rfl
  refine ⟨hraw, ?_⟩
  unfold get_ipmi_nvme_port
  rw [hraw]
  rfl

theorem c10_witness :
    nvme_port_raw Platform.unspecified [] ("a/bc".toList) = none ∧
    get_ipmi_nvme_port Platform.unspecified [] ("a/bc".toList) = none :=
  c10_nvme_port_undefined_without_preconditions Platform.unspecified []
    ("a/bc".toList) ("bc".toList) (by decide) (Or.inl (by decide))
